import Mathlib

/-!
Shallow embedding of the client-side request/response and state logic of
`src/src/App.js` (a URL-shortener front end) and proofs of the specified
properties.

The file models the two flows of the page:

* the shortening flow (`UrlShortenerForm`): React state `longUrl`,
  `shortUrl`, `loading`, `error`, `copySuccess`, plus the system clipboard
  and the revert timers scheduled by `copyToClipboard`;
* the listing flow (`AdminPage`): React state `urls`, `loading`, `error`,
  and the rendering of the analytics table.

Pure functions mirror the source line by line; the asynchronous
`handleSubmit` is split at its single suspension point (the `await axios.post`)
into a pre-request phase and a response phase, and the UI event loop is a
step function over explicit events.
-/

/-- The user-facing message set by `handleSubmit` when `longUrl` is empty
(App.js line 54). -/
def validationMsg : String := "Please enter a URL to shorten."

/-- The generic user-facing message set by `handleSubmit` when the POST
rejects (App.js line 63). -/
def shortenFailMsg : String := "Failed to shorten URL. Please check the link and try again."

/-- The message set by `AdminPage` when the listing body is not an array
(App.js line 145). -/
def formatErrorMsg : String := "Received an invalid format from the server."

/-- The message set by `AdminPage` when the GET rejects (App.js line 148). -/
def fetchFailMsg : String := "Failed to fetch URL list."

/-- Acknowledgment shown after a successful clipboard write (App.js line 72). -/
def copiedMsg : String := "Copied!"

/-- Acknowledgment shown after a failed clipboard write (App.js line 75). -/
def copyFailMsg : String := "Failed to copy!"

/-- The response payload of `POST /api/shorten` as read by the client:
`res.data`, of which the UI reads the `shortUrl` field (App.js lines 108-116). -/
structure ShortenData where
  shortUrl : String
deriving Repr, DecidableEq

/-- The request body `{ longUrl }` of the POST issued by `handleSubmit`
(App.js line 60). -/
structure ShortenRequest where
  longUrl : String
deriving Repr, DecidableEq

/-- Outcome of the awaited `axios.post`: a 2xx response carrying `res.data`,
or a rejection (network error, or HTTP status `some n` outside 2xx — axios
rejects on both, taking the `catch` branch). -/
inductive ShortenResponse
  | success (data : ShortenData)
  | failure (status : Option Nat)
deriving Repr, DecidableEq

/-- The React state of `UrlShortenerForm` (App.js lines 42-46) together with
the environment it acts on: the system clipboard and the pending
`setTimeout` revert deadlines, with `now` the current time in milliseconds. -/
structure FormState where
  longUrl : String
  shortUrl : Option ShortenData
  loading : Bool
  error : String
  copySuccess : String
  clipboard : String
  now : Nat
  revertTimers : List Nat
deriving Repr, DecidableEq

/-- Initial state of `UrlShortenerForm`: `useState('')`, `useState(null)`,
`useState(false)`, `useState('')`, `useState('')` (App.js lines 42-46). -/
def initFormState : FormState :=
  { longUrl := "", shortUrl := none, loading := false, error := ""
    copySuccess := "", clipboard := "", now := 0, revertTimers := [] }

/-- The synchronous part of `handleSubmit` up to the `await` (App.js lines
50-58): clear `error`, `shortUrl` and `copySuccess`; if `longUrl` is falsy
(empty) set the validation message and return without a request; otherwise
set `loading` and issue the POST with body `{ longUrl }`. The second
component is the request issued, `none` meaning no network call. -/
def handleSubmitPre (s : FormState) : FormState × Option ShortenRequest :=
  let s1 : FormState := { s with error := "", shortUrl := none, copySuccess := "" }
  if s1.longUrl = "" then
    ({ s1 with error := validationMsg }, none)
  else
    ({ s1 with loading := true }, some { longUrl := s1.longUrl })

/-- The continuation of `handleSubmit` after the response arrives (App.js
lines 60-67): on success `setShortUrl(res.data)`, on rejection set the
generic error; `finally` clears `loading` in both cases. -/
def handleSubmitPost (s : FormState) : ShortenResponse → FormState
  | .success d => { s with shortUrl := some d, loading := false }
  | .failure _ => { s with error := shortenFailMsg, loading := false }

/-- `copyToClipboard(text)` (App.js lines 70-78): on a successful
`navigator.clipboard.writeText` the clipboard holds `text`, the
acknowledgment becomes `Copied!` and a 2000 ms revert is scheduled; on a
failed write only the acknowledgment changes, to `Failed to copy!`, and no
revert is scheduled. -/
def copyToClipboard (text : String) (writeOk : Bool) (s : FormState) : FormState :=
  if writeOk then
    { s with clipboard := text, copySuccess := copiedMsg
             revertTimers := s.revertTimers ++ [s.now + 2000] }
  else
    { s with copySuccess := copyFailMsg }

/-- Events delivered to `UrlShortenerForm` by the UI event loop: an input
edit (`onChange`, App.js line 89), a form submission, the arrival of the
awaited response, a click on the Copy button (with the clipboard write
outcome), and the passage of `dt` milliseconds which fires any due timers. -/
inductive FormEvent
  | edit (text : String)
  | submitStart
  | responseArrive (resp : ShortenResponse)
  | copyClick (writeOk : Bool)
  | tick (dt : Nat)
deriving Repr, DecidableEq

/-- One step of the shortening flow. A submission is ignored while
`loading` (the submit button is disabled, App.js line 94); a response is
only delivered while a request is in flight; the Copy button exists only
when `shortUrl` is rendered (App.js lines 103-120); a `tick` fires every
scheduled revert whose deadline has passed, each setting `copySuccess` to
the empty string (App.js line 73). -/
def stepForm (s : FormState) : FormEvent → FormState
  | .edit t => { s with longUrl := t }
  | .submitStart => if s.loading then s else (handleSubmitPre s).1
  | .responseArrive resp => if s.loading then handleSubmitPost s resp else s
  | .copyClick writeOk =>
      match s.shortUrl with
      | some d => copyToClipboard d.shortUrl writeOk s
      | none => s
  | .tick dt =>
      { s with now := s.now + dt
               copySuccess :=
                 if s.revertTimers.any (fun d => d ≤ s.now + dt) then ""
                 else s.copySuccess
               revertTimers := s.revertTimers.filter (fun d => s.now + dt < d) }

/-- States of the shortening flow reachable from the initial render. -/
inductive ReachableForm : FormState → Prop
  | init : ReachableForm initFormState
  | step {s : FormState} (e : FormEvent) :
      ReachableForm s → ReachableForm (stepForm s e)

/-- One entry of the admin listing as consumed by the renderer
(App.js lines 176-183): `_id`, `originalUrl`, `shortUrl`, `clicks`. -/
structure UrlRecord where
  _id : String
  originalUrl : String
  shortUrl : String
  clicks : Nat
deriving Repr, DecidableEq

/-- The parsed body of `GET /api/urls`: either a JSON array of records or
some non-array JSON value (e.g. an object), which `Array.isArray` rejects
(App.js line 141). -/
inductive ListingBody
  | arr (records : List UrlRecord)
  | obj
deriving Repr, DecidableEq

/-- `Array.isArray(res.data)` (App.js line 141). -/
def ListingBody.isArray : ListingBody → Bool
  | .arr _ => true
  | .obj => false

/-- Outcome of the awaited `axios.get`: a 2xx response carrying the body,
or a rejection (network error, or HTTP status `some n` outside 2xx). -/
inductive ListResponse
  | success (body : ListingBody)
  | failure (status : Option Nat)
deriving Repr, DecidableEq

/-- The React state of `AdminPage` (App.js lines 132-134). -/
structure AdminState where
  urls : ListingBody
  loading : Bool
  error : String
deriving Repr, DecidableEq

/-- Initial state of `AdminPage`: `useState([])`, `useState(true)`,
`useState('')` (App.js lines 132-134). -/
def initAdminState : AdminState := { urls := .arr [], loading := true, error := "" }

/-- `fetchUrls` (App.js lines 137-153): on a 2xx response, `setUrls` only
if the body passes `Array.isArray`, otherwise set the format error; on a
rejection set the fetch error; `finally` clears `loading` in every case. -/
def fetchUrls (s : AdminState) : ListResponse → AdminState
  | .success body =>
      if body.isArray then { s with urls := body, loading := false }
      else { s with error := formatErrorMsg, loading := false }
  | .failure _ => { s with error := fetchFailMsg, loading := false }

/-- States of the listing flow reachable from activation: the initial state
followed by any number of completed fetches (the component performs exactly
one per activation; allowing more only widens the set). -/
inductive ReachableAdmin : AdminState → Prop
  | init : ReachableAdmin initAdminState
  | fetch {s : AdminState} (resp : ListResponse) :
      ReachableAdmin s → ReachableAdmin (fetchUrls s resp)

/-- One rendered table row (App.js lines 176-184): keyed by `_id`, showing
`originalUrl`, `shortUrl` and `clicks`. -/
structure RenderedRow where
  key : String
  originalUrl : String
  shortUrl : String
  clicks : Nat
deriving Repr, DecidableEq

/-- The row rendered for one record (App.js lines 176-184). -/
def renderRow (u : UrlRecord) : RenderedRow :=
  { key := u._id, originalUrl := u.originalUrl, shortUrl := u.shortUrl, clicks := u.clicks }

/-- The table body: the explicit empty-state row (App.js lines 187-189) or
one row per record. -/
inductive TableBody
  | emptyState
  | rows (rs : List RenderedRow)
deriving Repr, DecidableEq

/-- What `AdminPage` renders (App.js lines 158-195). -/
inductive AdminView
  | loadingView
  | errorView (msg : String)
  | table (body : TableBody)
deriving Repr, DecidableEq

/-- The render function of `AdminPage` (App.js lines 158-195): the loading
text while `loading`, the error text if `error` is truthy, otherwise the
table produced by `urls.length > 0 ? urls.map(...) : empty-state`. Calling
`.map` on a non-array value throws, modelled as `none`. -/
def renderAdmin (s : AdminState) : Option AdminView :=
  if s.loading then some .loadingView
  else if s.error ≠ "" then some (.errorView s.error)
  else
    match s.urls with
    | .arr rs =>
        some (.table (if rs.length > 0 then .rows (rs.map renderRow) else .emptyState))
    | .obj => none

/-- The inductive invariant of the shortening flow: while a request is in
flight both result and error are clear, and in every state at most one of
them is populated (`error` is truthy only when non-empty). -/
def FormInv (s : FormState) : Prop :=
  (s.loading = true → s.shortUrl = none ∧ s.error = "") ∧
  ¬(s.shortUrl ≠ none ∧ s.error ≠ "")

lemma formInv_init : FormInv initFormState := by
  constructor <;> simp [initFormState]

lemma formInv_step (s : FormState) (e : FormEvent) (h : FormInv s) :
    FormInv (stepForm s e) := by
  obtain ⟨h1, h2⟩ := h
  cases e with
  | edit t => exact ⟨h1, h2⟩
  | submitStart =>
      by_cases hl : s.loading = true
      · simpa [stepForm, hl] using ⟨h1, h2⟩
      · by_cases hu : s.longUrl = ""
        · constructor <;> simp [stepForm, hl, handleSubmitPre, hu]
        · constructor <;> simp [stepForm, hl, handleSubmitPre, hu]
  | responseArrive resp =>
      by_cases hl : s.loading = true
      · obtain ⟨hsu, her⟩ := h1 hl
        cases resp with
        | success d => constructor <;> simp [stepForm, hl, handleSubmitPost, her]
        | failure st => constructor <;> simp [stepForm, hl, handleSubmitPost, hsu]
      · simpa [stepForm, hl] using ⟨h1, h2⟩
  | copyClick writeOk =>
      cases hsu : s.shortUrl with
      | none => simpa [stepForm, hsu] using ⟨h1, h2⟩
      | some d =>
          by_cases hw : writeOk = true
          · constructor <;>
              simp [stepForm, hsu, copyToClipboard, hw] <;>
              simp [hsu] at h1 h2 <;> tauto
          · constructor <;>
              simp [stepForm, hsu, copyToClipboard, hw] <;>
              simp [hsu] at h1 h2 <;> tauto
  | tick dt =>
      constructor <;> simp [stepForm] <;> tauto

lemma reachableForm_inv (s : FormState) (hs : ReachableForm s) : FormInv s := by
  induction hs with
  | init => exact formInv_init
  | step e _ ih => exact formInv_step _ e ih

lemma handleSubmitPre_clears (s : FormState) :
    (handleSubmitPre s).1.shortUrl = none ∧
    (handleSubmitPre s).1.copySuccess = "" ∧
    ((handleSubmitPre s).2 ≠ none → (handleSubmitPre s).1.error = "") ∧
    (s.longUrl = "" → (handleSubmitPre s).2 = none ∧
      (handleSubmitPre s).1.error = validationMsg) := by
  by_cases h : s.longUrl = "" <;> simp [handleSubmitPre, h]

/-- C1: in every reachable state of the shortening flow at most one of
{result, error} is populated, and every submission (`handleSubmitPre`)
clears the stored result, the stored error and the copy acknowledgment
first: the result and the acknowledgment are clear in both outcomes, the
error is clear whenever a request is issued, and when the empty-input check
fails the error holds only the freshly set validation message. -/
theorem c1_result_error_exclusive (s : FormState) (hs : ReachableForm s) :
    ¬(s.shortUrl ≠ none ∧ s.error ≠ "") ∧
    (handleSubmitPre s).1.shortUrl = none ∧
    (handleSubmitPre s).1.copySuccess = "" ∧
    ((handleSubmitPre s).2 ≠ none → (handleSubmitPre s).1.error = "") ∧
    (s.longUrl = "" → (handleSubmitPre s).2 = none ∧
      (handleSubmitPre s).1.error = validationMsg) :=
  ⟨(reachableForm_inv s hs).2, handleSubmitPre_clears s⟩

theorem c1_witness :
    ¬(initFormState.shortUrl ≠ none ∧ initFormState.error ≠ "") ∧
    (handleSubmitPre initFormState).1.shortUrl = none ∧
    (handleSubmitPre initFormState).1.copySuccess = "" ∧
    ((handleSubmitPre initFormState).2 ≠ none →
      (handleSubmitPre initFormState).1.error = "") ∧
    (initFormState.longUrl = "" → (handleSubmitPre initFormState).2 = none ∧
      (handleSubmitPre initFormState).1.error = validationMsg) :=
  c1_result_error_exclusive initFormState ReachableForm.init

/-- C2, counterexample to the claim as stated: on the empty submission the
flow does fail locally without a request, but the message it stores is
`"Please enter a URL to shorten."` (App.js line 54), not the claimed
`"Please enter a URL to shorten"`. -/
theorem c2_counterexample :
    initFormState.longUrl = "" ∧
    (handleSubmitPre initFormState).2 = none ∧
    (handleSubmitPre initFormState).1.error ≠ "Please enter a URL to shorten" := by
  refine ⟨rfl, ?_, ?_⟩ <;> simp [handleSubmitPre, initFormState, validationMsg]

/-- C2, amended: a submission whose input is empty issues no request, fails
locally with the validation message `"Please enter a URL to shorten."`
(trailing period), and leaves the in-flight flag exactly as it was. -/
theorem c2_empty_input_no_request (s : FormState) (h : s.longUrl = "") :
    (handleSubmitPre s).2 = none ∧
    (handleSubmitPre s).1.error = validationMsg ∧
    (handleSubmitPre s).1.loading = s.loading := by
  simp [handleSubmitPre, h]

theorem c2_witness :
    initFormState.longUrl = "" ∧
    ((handleSubmitPre initFormState).2 = none ∧
     (handleSubmitPre initFormState).1.error = validationMsg ∧
     (handleSubmitPre initFormState).1.loading = initFormState.loading) :=
  ⟨rfl, c2_empty_input_no_request initFormState rfl⟩

/-- Concrete submission state used to instantiate the shortening-flow
scenarios: the user has typed `https://example.com`. -/
def demoSubmitState : FormState := { initFormState with longUrl := "https://example.com" }

/-- C3: on a non-empty input the submission issues the POST with body
`{ longUrl }` and enters the in-flight state; when the endpoint responds
successfully the flow stores exactly the returned value, the error is
absent and the in-flight flag is cleared. -/
theorem c3_success_stores_result (s : FormState) (d : ShortenData)
    (hl : s.loading = false) (hu : s.longUrl ≠ "") :
    (handleSubmitPre s).2 = some { longUrl := s.longUrl } ∧
    (stepForm s .submitStart).loading = true ∧
    (stepForm (stepForm s .submitStart) (.responseArrive (.success d))).shortUrl = some d ∧
    (stepForm (stepForm s .submitStart) (.responseArrive (.success d))).error = "" ∧
    (stepForm (stepForm s .submitStart) (.responseArrive (.success d))).loading = false := by
  refine ⟨?_, ?_, ?_, ?_, ?_⟩ <;>
    simp [stepForm, handleSubmitPre, handleSubmitPost, hl, hu]

theorem c3_witness :
    demoSubmitState.loading = false ∧ demoSubmitState.longUrl ≠ "" ∧
    ((handleSubmitPre demoSubmitState).2 =
       some { longUrl := demoSubmitState.longUrl } ∧
     (stepForm demoSubmitState .submitStart).loading = true ∧
     (stepForm (stepForm demoSubmitState .submitStart)
        (.responseArrive (.success { shortUrl := "https://s/abc" }))).shortUrl =
       some { shortUrl := "https://s/abc" } ∧
     (stepForm (stepForm demoSubmitState .submitStart)
        (.responseArrive (.success { shortUrl := "https://s/abc" }))).error = "" ∧
     (stepForm (stepForm demoSubmitState .submitStart)
        (.responseArrive (.success { shortUrl := "https://s/abc" }))).loading = false) :=
  ⟨rfl, by decide,
   c3_success_stores_result demoSubmitState { shortUrl := "https://s/abc" } rfl (by decide)⟩

/-- C4: on a non-empty input, when the request rejects — whether by network
error (`none`) or by a non-2xx HTTP status such as 500 — the flow ends with
the one fixed generic message (`shortenFailMsg`, which reads "Failed to
shorten URL. Please check the link and try again."), the result absent and
the in-flight flag cleared. -/
theorem c4_failure_generic_message (s : FormState) (st : Option Nat)
    (hl : s.loading = false) (hu : s.longUrl ≠ "") :
    (stepForm (stepForm s .submitStart) (.responseArrive (.failure st))).error =
      shortenFailMsg ∧
    (stepForm (stepForm s .submitStart) (.responseArrive (.failure st))).shortUrl = none ∧
    (stepForm (stepForm s .submitStart) (.responseArrive (.failure st))).loading = false := by
  refine ⟨?_, ?_, ?_⟩ <;>
    simp [stepForm, handleSubmitPre, handleSubmitPost, hl, hu]

theorem c4_witness :
    demoSubmitState.loading = false ∧ demoSubmitState.longUrl ≠ "" ∧
    ((stepForm (stepForm demoSubmitState .submitStart)
        (.responseArrive (.failure (some 500)))).error = shortenFailMsg ∧
     (stepForm (stepForm demoSubmitState .submitStart)
        (.responseArrive (.failure (some 500)))).shortUrl = none ∧
     (stepForm (stepForm demoSubmitState .submitStart)
        (.responseArrive (.failure (some 500)))).loading = false) :=
  ⟨rfl, by decide,
   c4_failure_generic_message demoSubmitState (some 500) rfl (by decide)⟩

/-- C5, counterexample to the claim as stated: a successful listing
response whose body is a JSON object is rejected by the array check, but
the message stored is `"Received an invalid format from the server."`
(App.js line 145), not the claimed
`"Received an invalid format from the server"`. -/
theorem c5_counterexample :
    ListingBody.isArray ListingBody.obj = false ∧
    (fetchUrls initAdminState (.success ListingBody.obj)).error ≠
      "Received an invalid format from the server" := by
  refine ⟨rfl, ?_⟩
  simp [fetchUrls, initAdminState, ListingBody.isArray, formatErrorMsg]

/-- C5, amended: for every listing response whose body is not an array the
flow ends failed with the format message `"Received an invalid format from
the server."` (trailing period), the record list keeps its initial empty
value, and the page renders the error text, so no records are rendered. -/
theorem c5_nonarray_format_error (body : ListingBody) (h : body.isArray = false) :
    (fetchUrls initAdminState (.success body)).error = formatErrorMsg ∧
    (fetchUrls initAdminState (.success body)).urls = ListingBody.arr [] ∧
    renderAdmin (fetchUrls initAdminState (.success body)) =
      some (.errorView formatErrorMsg) := by
  have hfe : fetchUrls initAdminState (.success body) =
      { urls := .arr [], loading := false, error := formatErrorMsg } := by
    simp [fetchUrls, h, initAdminState]
  rw [hfe]
  refine ⟨rfl, rfl, ?_⟩
  simp [renderAdmin, formatErrorMsg]

theorem c5_witness :
    ListingBody.isArray ListingBody.obj = false ∧
    ((fetchUrls initAdminState (.success ListingBody.obj)).error = formatErrorMsg ∧
     (fetchUrls initAdminState (.success ListingBody.obj)).urls = ListingBody.arr [] ∧
     renderAdmin (fetchUrls initAdminState (.success ListingBody.obj)) =
       some (.errorView formatErrorMsg)) :=
  ⟨rfl, c5_nonarray_format_error ListingBody.obj rfl⟩

/-- C6: a successful array response replaces the entire record list with
the response contents; the rendered table body is the explicit empty-state
row when the list is empty and otherwise exactly the records mapped to rows
in server-provided order (the map keeps length and order, with no sort or
filter). -/
theorem c6_success_replaces_list (rs : List UrlRecord) :
    (fetchUrls initAdminState (.success (.arr rs))).urls = ListingBody.arr rs ∧
    (fetchUrls initAdminState (.success (.arr rs))).error = "" ∧
    renderAdmin (fetchUrls initAdminState (.success (.arr rs))) =
      some (.table (if rs.length > 0 then .rows (rs.map renderRow) else .emptyState)) ∧
    (rs.map renderRow).length = rs.length := by
  refine ⟨?_, ?_, ?_, by simp⟩ <;>
    simp [fetchUrls, initAdminState, ListingBody.isArray, renderAdmin]

/-- Concrete post-success state used to instantiate the copy scenarios: a
result whose short URL is `https://s/abc` is displayed. -/
def copyDemoState : FormState :=
  { initFormState with shortUrl := some { shortUrl := "https://s/abc" } }

/-- C7, counterexample to the claim as stated: a copy action whose
clipboard write fails produces the `"Failed to copy!"` acknowledgment, and
after 2000 ms with no further action it is still `"Failed to copy!"` — the
failure branch of `copyToClipboard` schedules no revert (App.js lines
74-77), so this acknowledgment never auto-reverts. -/
theorem c7_counterexample :
    (stepForm copyDemoState (.copyClick false)).copySuccess = copyFailMsg ∧
    (stepForm (stepForm copyDemoState (.copyClick false)) (.tick 2000)).copySuccess =
      copyFailMsg ∧
    copyFailMsg ≠ "" := by
  refine ⟨?_, ?_, ?_⟩ <;> decide

/-- C7, amended: only the `"Copied!"` acknowledgment auto-reverts, 2000 ms
after its copy action; a failed clipboard write sets `"Failed to copy!"`,
schedules no revert timer, and (when no earlier timer is pending) the
acknowledgment persists through any further passage of time until some
other action replaces it. -/
theorem c7_only_copied_ack_reverts (s : FormState) (d : ShortenData)
    (h : s.shortUrl = some d) :
    (stepForm s (.copyClick true)).copySuccess = copiedMsg ∧
    (stepForm (stepForm s (.copyClick true)) (.tick 2000)).copySuccess = "" ∧
    (stepForm s (.copyClick false)).copySuccess = copyFailMsg ∧
    (stepForm s (.copyClick false)).revertTimers = s.revertTimers ∧
    (s.revertTimers = [] → ∀ dt : Nat,
      (stepForm (stepForm s (.copyClick false)) (.tick dt)).copySuccess = copyFailMsg) := by
  refine ⟨?_, ?_, ?_, ?_, ?_⟩
  · simp [stepForm, h, copyToClipboard]
  · simp [stepForm, h, copyToClipboard]
  · simp [stepForm, h, copyToClipboard]
  · simp [stepForm, h, copyToClipboard]
  · intro ht dt
    simp [stepForm, h, copyToClipboard, ht]

theorem c7_witness :
    copyDemoState.shortUrl = some { shortUrl := "https://s/abc" } ∧
    (stepForm copyDemoState (.copyClick true)).copySuccess = copiedMsg ∧
    (stepForm (stepForm copyDemoState (.copyClick true)) (.tick 2000)).copySuccess = "" ∧
    (stepForm (stepForm copyDemoState (.copyClick false)) (.tick 2000)).copySuccess =
      copyFailMsg :=
  ⟨rfl,
   (c7_only_copied_ack_reverts copyDemoState { shortUrl := "https://s/abc" } rfl).1,
   (c7_only_copied_ack_reverts copyDemoState { shortUrl := "https://s/abc" } rfl).2.1,
   (c7_only_copied_ack_reverts copyDemoState { shortUrl := "https://s/abc" } rfl).2.2.2.2
     rfl 2000⟩

/-- C8: copying a displayed result writes exactly its `shortUrl` to the
clipboard, the acknowledgment reads `"Copied!"` immediately after, and with
no further action it is absent once 2000 ms have elapsed. -/
theorem c8_copy_roundtrip (s : FormState) (d : ShortenData) (h : s.shortUrl = some d) :
    (stepForm s (.copyClick true)).clipboard = d.shortUrl ∧
    (stepForm s (.copyClick true)).copySuccess = copiedMsg ∧
    (stepForm (stepForm s (.copyClick true)) (.tick 2000)).copySuccess = "" := by
  refine ⟨?_, ?_, ?_⟩ <;> simp [stepForm, h, copyToClipboard]

theorem c8_witness :
    copyDemoState.shortUrl = some { shortUrl := "https://s/abc" } ∧
    (stepForm copyDemoState (.copyClick true)).clipboard = "https://s/abc" ∧
    (stepForm copyDemoState (.copyClick true)).copySuccess = copiedMsg ∧
    (stepForm (stepForm copyDemoState (.copyClick true)) (.tick 2000)).copySuccess = "" :=
  ⟨rfl,
   (c8_copy_roundtrip copyDemoState { shortUrl := "https://s/abc" } rfl).1,
   (c8_copy_roundtrip copyDemoState { shortUrl := "https://s/abc" } rfl).2.1,
   (c8_copy_roundtrip copyDemoState { shortUrl := "https://s/abc" } rfl).2.2⟩

/-- C9: every event of the shortening flow other than an input edit —
submission, response arrival, copy clicks, passage of time — leaves the
current input text unchanged; only `onChange` edits modify it. -/
theorem c9_flow_preserves_input (s : FormState) (e : FormEvent)
    (h : ∀ t, e ≠ FormEvent.edit t) :
    (stepForm s e).longUrl = s.longUrl := by
  cases e with
  | edit t => exact absurd rfl (h t)
  | submitStart =>
      by_cases hl : s.loading = true
      · simp [stepForm, hl]
      · by_cases hu : s.longUrl = "" <;> simp [stepForm, hl, handleSubmitPre, hu]
  | responseArrive resp =>
      by_cases hl : s.loading = true
      · cases resp <;> simp [stepForm, hl, handleSubmitPost]
      · simp [stepForm, hl]
  | copyClick writeOk =>
      cases hsu : s.shortUrl with
      | none => simp [stepForm, hsu]
      | some d =>
          by_cases hw : writeOk = true <;> simp [stepForm, hsu, copyToClipboard, hw]
  | tick dt => simp [stepForm]

theorem c9_witness :
    (∀ t, FormEvent.submitStart ≠ FormEvent.edit t) ∧
    (stepForm initFormState FormEvent.submitStart).longUrl = initFormState.longUrl :=
  ⟨fun _ h => FormEvent.noConfusion h,
   c9_flow_preserves_input initFormState FormEvent.submitStart
     (fun _ h => FormEvent.noConfusion h)⟩

lemma reachableAdmin_urls_arr (s : AdminState) (hs : ReachableAdmin s) :
    ∃ rs, s.urls = ListingBody.arr rs := by
  induction hs with
  | init => exact ⟨[], rfl⟩
  | fetch resp _ ih =>
      obtain ⟨rs, hrs⟩ := ih
      cases resp with
      | success body =>
          cases body with
          | arr rs2 => exact ⟨rs2, by simp [fetchUrls, ListingBody.isArray]⟩
          | obj => exact ⟨rs, by simp [fetchUrls, ListingBody.isArray, hrs]⟩
      | failure st => exact ⟨rs, by simp [fetchUrls, hrs]⟩

lemma renderAdmin_isSome_of_arr (s : AdminState)
    (h : ∃ rs, s.urls = ListingBody.arr rs) : (renderAdmin s).isSome = true := by
  obtain ⟨rs, hrs⟩ := h
  unfold renderAdmin
  rw [hrs]
  split_ifs <;> simp

/-- C10: in every reachable state of the listing flow the record list is an
array — initialized to the empty array and only reassigned to bodies that
passed the `Array.isArray` check — so the render function, whose
per-record `.map` step is defined only on arrays, always produces a view
and never crashes. -/
theorem c10_urls_always_array (s : AdminState) (hs : ReachableAdmin s) :
    (∃ rs, s.urls = ListingBody.arr rs) ∧ (renderAdmin s).isSome = true :=
  ⟨reachableAdmin_urls_arr s hs,
   renderAdmin_isSome_of_arr s (reachableAdmin_urls_arr s hs)⟩

theorem c10_witness :
    (∃ rs, initAdminState.urls = ListingBody.arr rs) ∧
    (renderAdmin initAdminState).isSome = true :=
  c10_urls_always_array initAdminState ReachableAdmin.init
